import Mathlib

/-!
Shallow embedding of the Emailer Tool Lambda (`src/Emailer Tool/EmailerTool.py`).

The tool receives an SNS-or-native event, parses it into
`(account_id, event_subject, event_message)`, resolves the account email from
DynamoDB, fetches an HTML template from S3 keyed on the subject, substitutes
the message into the template, and sends the result via SES.  External
services (DynamoDB, S3, SES success) are modelled as function parameters;
Python strings are modelled as `String` (`List Char` underneath), and Python
exceptions as `Except` errors.
-/

set_option autoImplicit false
set_option linter.unusedVariables false

/-- Python runtime errors this program can raise unhandled:
`UnboundLocalError`, when a function reaches a use of a local variable that was
never assigned on the taken path, and `KeyError key`, for a failed dict
lookup performed outside any enclosing `try`. -/
inductive PyErr where
  | unboundLocal : PyErr
  | keyError : String → PyErr
deriving DecidableEq

/-- `isPre p l` : the character list `p` is a prefix of `l` (the anchored
match check used below to model regex literal/`in` matching). -/
def isPre : List Char → List Char → Bool
  | [], _ => true
  | _ :: _, [] => false
  | a :: as, b :: bs => a == b && isPre as bs

/-- Python substring containment `pat in s`, on character lists. -/
def containsSub (pat : List Char) : List Char → Bool
  | [] => isPre pat []
  | c :: cs => isPre pat (c :: cs) || containsSub pat cs

/-- Python `s.split(' ')` with an explicit single-character separator:
splits at every space, keeping empty fields. -/
def splitOnSpace : List Char → List (List Char)
  | [] => [[]]
  | c :: cs =>
    if c = ' ' then [] :: splitOnSpace cs
    else
      match splitOnSpace cs with
      | [] => [[c]]
      | f :: rest => (c :: f) :: rest

/-- The literal part of the regex `r'Account: [0-9]*'` in `parse_event`. -/
def accountPat : List Char := "Account: ".data

/-- `re.search(r'Account: [0-9]*', msg)`: the regex matches at a position
exactly when the literal `"Account: "` starts there (the digit star accepts
the empty run), so the leftmost match begins at the first occurrence of
`"Account: "`; the matched text is that literal followed by the maximal
(greedy) digit run.  Returns `none` when the literal occurs nowhere. -/
def findAccountMatch : List Char → Option (List Char)
  | [] => none
  | c :: cs =>
    if isPre accountPat (c :: cs) then
      some (accountPat ++ ((c :: cs).drop accountPat.length).takeWhile Char.isDigit)
    else findAccountMatch cs

/-- The suffix of the message starting at the first occurrence of
`"Account: "` (`none` when there is no occurrence).  Used to state claims
about where the regex match happens, independently of `findAccountMatch`. -/
def firstAccountSuffix : List Char → Option (List Char)
  | [] => none
  | c :: cs =>
    if isPre accountPat (c :: cs) then some (c :: cs) else firstAccountSuffix cs

/-- The event that triggered the Lambda.  Each field holds the result of the
corresponding structural access on the Python dict:
`snsMessage`/`snsSubject` model `event['Records'][0]['Sns']['Message']` and
`... ['Subject']` (`none` when that chain of accesses raises, e.g. a missing
key, so that the bare `except:` takes the AWS-managed branch);
`account`/`detailType` model `event['account']` and `event['detail-type']`
(`none` when the key is missing, which raises `KeyError` unhandled);
`rendered` is `str(event)`. -/
structure RawEvent where
  snsMessage : Option String
  snsSubject : Option String
  account : Option String
  detailType : Option String
  rendered : String
deriving DecidableEq

/-- `parse_event` from `EmailerTool.py`.  The `try` block reads the SNS
message and subject and searches for `r'Account: [0-9]*'`; on a match the
account id is `match.group().split(' ')[1]`.  On no match nothing assigns
`account_id`, and the `return` statement — which sits *outside* the
`try`/`except` — raises `UnboundLocalError`.  When the structural access
fails, the `except:` branch reads `event['account']` and
`event['detail-type']` (each raising `KeyError` unhandled when missing) and
stringifies the event. -/
def parse_event (event : RawEvent) : Except PyErr (String × String × String) :=
  match event.snsMessage, event.snsSubject with
  | some event_message, some event_subject =>
    match findAccountMatch event_message.data with
    | some account_id_msg =>
      .ok (⟨(splitOnSpace account_id_msg).getD 1 []⟩, event_subject, event_message)
    | none => .error .unboundLocal
  | _, _ =>
    match event.account with
    | none => .error (.keyError "account")
    | some account_id =>
      match event.detailType with
      | none => .error (.keyError "detail-type")
      | some event_subject => .ok (account_id, event_subject, event.rendered)

/-- One DynamoDB item, as accessed by `get_account_email`:
`accountemail`/`accountname` hold `response['Item']['accountemail']['S']`
resp. `...['accountname']['S']` (`none` when the key is missing, raising
`KeyError` unhandled). -/
structure DynamoItem where
  accountemail : Option String
  accountname : Option String
deriving DecidableEq

/-- `get_account_email` from `EmailerTool.py`.  `lookup` models the DynamoDB
`get_item` call: `lookup account_id = none` models a response with no
`'Item'`.  In that branch the code only logs; `accountname` and
`accountemail` are never assigned, so the `return` raises
`UnboundLocalError`.  Otherwise the email is read before the name, and the
triple `(account_id, accountname, accountemail)` is returned. -/
def get_account_email (account_id : String)
    (lookup : String → Option DynamoItem) : Except PyErr (String × String × String) :=
  match lookup account_id with
  | none => .error .unboundLocal
  | some item =>
    match item.accountemail with
    | none => .error (.keyError "accountemail")
    | some accountemail =>
      match item.accountname with
      | none => .error (.keyError "accountname")
      | some accountname => .ok (account_id, accountname, accountemail)

/-- The one entry of the subject-substring table in `get_email_template`. -/
def rotationSubjectMarker : String := "New AWS IAM Access Key Pair Created"

/-- The template object name selected for the key-rotation subject. -/
def rotationTemplateKey : String := "IAM Auto Key Rotation Enforcement.html"

/-- The `bucket_key` chosen by `get_email_template`: the key-rotation
template name when the subject contains the known marker, else `''`. -/
def templateKeyFor (event_type : String) : String :=
  if containsSub rotationSubjectMarker.data event_type.data then rotationTemplateKey
  else ""

/-- `get_email_template` from `EmailerTool.py`.  `fetch` models
`get_s3_object` followed by UTF-8 decoding: `fetch key = none` models any
exception in that `try` block (missing object, invalid key such as the empty
string — boto3 rejects an empty object key — bad bucket, or decode failure),
which the code turns into the empty template body. -/
def get_email_template (event_type : String)
    (fetch : String → Option String) : String :=
  match fetch (templateKeyFor event_type) with
  | some email_template_decoded => email_template_decoded
  | none => ""

/-- The placeholder token replaced by `update_email_template`
(spelled `[insert-iolations-here]` in the source). -/
def violationsToken : String := "[insert-iolations-here]"

/-- Fuel-indexed core of Python `str.replace` for a non-empty pattern:
scan left to right, replacing each non-overlapping occurrence of `pat` by
`rep`.  The fuel only has to dominate the list length (each step consumes at
least one character). -/
def replAux (pat rep : List Char) : Nat → List Char → List Char
  | 0, l => l
  | _ + 1, [] => []
  | fuel + 1, c :: cs =>
    if isPre pat (c :: cs) then
      rep ++ replAux pat rep fuel (cs.drop (pat.length - 1))
    else c :: replAux pat rep fuel cs

/-- Python `str.replace` on character lists (non-empty pattern). -/
def pyRepl (pat rep l : List Char) : List Char := replAux pat rep l.length l

/-- Python `s.replace(old, new)` for the non-empty patterns this program
uses. -/
def pyReplace (s old new : String) : String := ⟨pyRepl old.data new.data s.data⟩

/-- `update_email_template` from `EmailerTool.py`: a single
`html_template.replace("[insert-iolations-here]", event_details_message)`;
the other two arguments are accepted but unused, as in the source. -/
def update_email_template (html_template : String)
    (account_details : String × String × String)
    (event_details_subject event_details_message : String) : String :=
  pyReplace html_template violationsToken event_details_message

/-- The request `send_email` hands to `ses_client.send_email`. -/
structure SesRequest where
  source : String
  toAddresses : List String
  subjectData : String
  bodyTextData : String
  bodyHtmlData : String
deriving DecidableEq

/-- `send_email` from `EmailerTool.py`: builds the SES request with the
configured source, the single recipient, the subject, and the *same*
`html_email_body` as both the `Text` and the `Html` body. -/
def send_email (admin_email_source end_user_email subject_text html_email_body : String) :
    SesRequest :=
  { source := admin_email_source
    toAddresses := [end_user_email]
    subjectData := subject_text
    bodyTextData := html_email_body
    bodyHtmlData := html_email_body }

/-- `json.dumps` on the plain strings this program serializes (no characters
needing escapes): wrap in double quotes. -/
def jsonDumps (s : String) : String := "\"" ++ s ++ "\""

/-- The value `lambda_handler` returns. -/
structure LambdaResponse where
  statusCode : Nat
  body : String
deriving DecidableEq

/-- `lambda_handler` from `EmailerTool.py`.  `parse_event` and
`get_account_email` run outside any `try`, so their errors propagate;
then the template is fetched and rendered, and the `try`/`except` around
`send_email` — modelled by the predicate `sendOk` on
(recipient, subject, body), `true` when the SES call completes without
raising — always yields `statusCode` 200 with one of two bodies. -/
def lambda_handler (event : RawEvent) (lookup : String → Option DynamoItem)
    (fetch : String → Option String) (sendOk : String → String → String → Bool) :
    Except PyErr LambdaResponse :=
  match parse_event event with
  | .error e => .error e
  | .ok (account_id, event_subject, event_message) =>
    match get_account_email account_id lookup with
    | .error e => .error e
    | .ok account_details =>
      let email_template := get_email_template event_subject fetch
      let email_template_modified :=
        update_email_template email_template account_details event_subject event_message
      if sendOk account_details.2.2 event_subject email_template_modified then
        .ok ⟨200, jsonDumps "Email sent!"⟩
      else
        .ok ⟨200, jsonDumps "ERROR email not sent!"⟩

-- Sanity checks on concrete inputs (mirroring the sample event).
example :
    parse_event ⟨some "Overly permissive!\nAccount: 111122223333\nRegion: x",
      some "Config Rule - Wide Open SG Rule Detected", none, none, "r"⟩
      = .ok ("111122223333", "Config Rule - Wide Open SG Rule Detected",
          "Overly permissive!\nAccount: 111122223333\nRegion: x") := rfl

example : parse_event ⟨some "no id here", some "s", none, none, "r"⟩
    = .error .unboundLocal := rfl

example : parse_event ⟨none, none, some "444455556666", some "dt", "repr"⟩
    = .ok ("444455556666", "dt", "repr") := rfl

example : get_account_email "1" (fun _ => none) = .error .unboundLocal := rfl

example : templateKeyFor "AWS Notification - New AWS IAM Access Key Pair Created!"
    = rotationTemplateKey := by decide

example : templateKeyFor "Config Rule - Wide Open SG Rule Detected" = "" := by decide

example :
    update_email_template "a[insert-iolations-here]b[insert-iolations-here]c"
      ("", "", "") "s" "MSG" = "aMSGbMSGc" := by decide

/-! ### Lemmas about the replace core -/

theorem replAux_congr (pat rep : List Char) :
    ∀ (f₁ f₂ : Nat) (l : List Char), l.length ≤ f₁ → l.length ≤ f₂ →
      replAux pat rep f₁ l = replAux pat rep f₂ l := by
  intro f₁
  induction f₁ with
  | zero =>
    intro f₂ l h₁ _
    have hl : l = [] := List.length_eq_zero.mp (Nat.le_zero.mp h₁)
    subst hl
    cases f₂ <;> rfl
  | succ k ih =>
    intro f₂ l h₁ h₂
    cases l with
    | nil => cases f₂ <;> rfl
    | cons c cs =>
      cases f₂ with
      | zero => simp at h₂
      | succ j =>
        simp only [List.length_cons, Nat.succ_le_succ_iff] at h₁ h₂
        simp only [replAux]
        by_cases hp : isPre pat (c :: cs) = true
        · rw [if_pos hp, if_pos hp]
          have hd : (cs.drop (pat.length - 1)).length ≤ cs.length := by
            simp [List.length_drop]
          exact congrArg (rep ++ ·) (ih j _ (le_trans hd h₁) (le_trans hd h₂))
        · rw [if_neg hp, if_neg hp]
          exact congrArg (c :: ·) (ih j cs h₁ h₂)

theorem pyRepl_nil (pat rep : List Char) : pyRepl pat rep [] = [] := rfl

theorem pyRepl_cons_neg (pat rep : List Char) (c : Char) (cs : List Char)
    (h : isPre pat (c :: cs) = false) :
    pyRepl pat rep (c :: cs) = c :: pyRepl pat rep cs := by
  simp only [pyRepl, List.length_cons, replAux, h]
  simp

theorem pyRepl_cons_pos (pat rep : List Char) (c : Char) (cs : List Char)
    (h : isPre pat (c :: cs) = true) :
    pyRepl pat rep (c :: cs) = rep ++ pyRepl pat rep (cs.drop (pat.length - 1)) := by
  simp only [pyRepl, List.length_cons, replAux, h, if_true]
  refine congrArg (rep ++ ·) (replAux_congr pat rep _ _ _ ?_ le_rfl)
  simp [List.length_drop]

/-- Replace-on-absent is the identity: when the pattern occurs nowhere in
`l`, Python `replace` returns `l` unchanged. -/
theorem pyRepl_of_not_contains (pat rep : List Char) :
    ∀ l : List Char, containsSub pat l = false → pyRepl pat rep l = l := by
  intro l
  induction l with
  | nil => intro _; rfl
  | cons c cs ih =>
    intro h
    simp only [containsSub, Bool.or_eq_false_iff] at h
    rw [pyRepl_cons_neg pat rep c cs h.1, ih h.2]

theorem isPre_append_self (p l : List Char) : isPre p (p ++ l) = true := by
  induction p with
  | nil => rfl
  | cons c cs ih => simp [isPre, ih]

/-- Scanning past a stretch that contains no copy of the pattern's first
character: `replace` leaves it untouched and continues. -/
theorem pyRepl_append_of_head_notin (p0 : Char) (pt rep : List Char) :
    ∀ (a l : List Char), (∀ c ∈ a, c ≠ p0) →
      pyRepl (p0 :: pt) rep (a ++ l) = a ++ pyRepl (p0 :: pt) rep l := by
  intro a
  induction a with
  | nil => intro l _; rfl
  | cons c cs ih =>
    intro l ha
    have hc : c ≠ p0 := ha c (List.mem_cons_self c cs)
    have hb : (p0 == c) = false := beq_eq_false_iff_ne.mpr (fun h => hc h.symm)
    have hp : isPre (p0 :: pt) (c :: (cs ++ l)) = false := by
      simp [isPre, hb]
    rw [List.cons_append, pyRepl_cons_neg _ _ _ _ hp,
      ih l (fun x hx => ha x (List.mem_cons_of_mem c hx)), List.cons_append]

/-- A string with no copy of the pattern's first character is left unchanged. -/
theorem pyRepl_of_head_notin (p0 : Char) (pt rep : List Char) (l : List Char)
    (h : ∀ c ∈ l, c ≠ p0) : pyRepl (p0 :: pt) rep l = l := by
  have := pyRepl_append_of_head_notin p0 pt rep l [] h
  simpa [pyRepl_nil] using this

/-- Hitting an occurrence: the occurrence is replaced and scanning continues
on the remainder (so later occurrences are also replaced). -/
theorem pyRepl_pat_append (p0 : Char) (pt rep l : List Char) :
    pyRepl (p0 :: pt) rep ((p0 :: pt) ++ l) = rep ++ pyRepl (p0 :: pt) rep l := by
  have hp : isPre (p0 :: pt) (p0 :: (pt ++ l)) = true := by
    have := isPre_append_self (p0 :: pt) l
    simpa using this
  rw [List.cons_append, pyRepl_cons_pos _ _ _ _ hp]
  have hd : (pt ++ l).drop ((p0 :: pt).length - 1) = l := by
    simp [List.drop_left]
  rw [hd]

/-! ### Lemmas about the account-id extraction -/

/-- The regex search and the first-occurrence suffix agree: the leftmost
match consists of the literal followed by the greedy digit run read off that
suffix. -/
theorem findAccountMatch_of_firstSuffix :
    ∀ (l suf : List Char), firstAccountSuffix l = some suf →
      findAccountMatch l
        = some (accountPat ++ (suf.drop accountPat.length).takeWhile Char.isDigit) := by
  intro l
  induction l with
  | nil => intro suf h; simp [firstAccountSuffix] at h
  | cons c cs ih =>
    intro suf h
    by_cases hp : isPre accountPat (c :: cs) = true
    · rw [firstAccountSuffix, if_pos hp] at h
      rw [findAccountMatch, if_pos hp]
      cases h
      rfl
    · rw [firstAccountSuffix, if_neg hp] at h
      rw [findAccountMatch, if_neg hp]
      exact ih suf h

/-- When the message nowhere contains `"Account: "`, the regex search fails. -/
theorem findAccountMatch_eq_none :
    ∀ l : List Char, containsSub accountPat l = false → findAccountMatch l = none := by
  intro l
  induction l with
  | nil => intro _; rfl
  | cons c cs ih =>
    intro h
    simp only [containsSub, Bool.or_eq_false_iff] at h
    rw [findAccountMatch, if_neg (by simp [h.1]), ih h.2]

theorem splitOnSpace_no_space :
    ∀ l : List Char, (∀ c ∈ l, c ≠ ' ') → splitOnSpace l = [l] := by
  intro l
  induction l with
  | nil => intro _; rfl
  | cons c cs ih =>
    intro h
    rw [splitOnSpace, if_neg (h c (List.mem_cons_self c cs)),
      ih (fun x hx => h x (List.mem_cons_of_mem c hx))]

/-- `'Account: 123'.split(' ')[1]` picks out exactly the digit run: splitting
the matched text at spaces yields `['Account:', digits]`. -/
theorem splitOnSpace_account (ds : List Char) (h : ∀ c ∈ ds, c ≠ ' ') :
    (splitOnSpace (accountPat ++ ds)).getD 1 [] = ds := by
  have h1 : splitOnSpace (accountPat ++ ds)
      = "Account:".data :: splitOnSpace ds := rfl
  rw [h1, splitOnSpace_no_space ds h]
  rfl

theorem takeWhile_digit_no_space (l : List Char) :
    ∀ c ∈ l.takeWhile Char.isDigit, c ≠ ' ' := by
  intro c hc hsp
  have hd : Char.isDigit c = true := List.mem_takeWhile_imp hc
  rw [hsp] at hd
  simp [Char.isDigit] at hd

/-! ### Claim theorems -/

/-- C1, counterexample. The claim says that on a DynamoDB response with no
`'Item'`, `get_account_email` returns a triple with undefined
name/email components and does not raise.  On the concrete account id
`"123456789012"` with an empty mapping, the function instead raises
`UnboundLocalError`: `accountname`/`accountemail` were never assigned when
the `return` statement reads them. -/
theorem get_account_email_miss_counterexample :
    get_account_email "123456789012" (fun _ => none) = .error .unboundLocal := rfl

/-- C1, amended. For every DynamoDB lookup response that contains no `'Item'`
for the given account identifier, `get_account_email` raises an unhandled
`UnboundLocalError` at its `return` statement (`accountname` and
`accountemail` were never assigned); it does not return a record. -/
theorem get_account_email_miss_raises (account_id : String)
    (lookup : String → Option DynamoItem) (h : lookup account_id = none) :
    get_account_email account_id lookup = .error .unboundLocal := by
  simp [get_account_email, h]

/-- C1, witness for the amended theorem at a concrete input. -/
theorem get_account_email_miss_raises_witness :
    get_account_email "999988887777" (fun _ => none) = .error .unboundLocal :=
  get_account_email_miss_raises "999988887777" (fun _ => none) rfl

/-- C2, counterexample. The claim says that a custom-wrapped event whose
message contains no `'Account: '`-digits substring still completes and
returns, failing upward only when neither shape's fields are present.  On
this concrete event the SNS `Message`/`Subject` fields are present, the
native `account`/`detail-type` fields are present too, and yet `parse_event`
raises `UnboundLocalError`: the regex found no match, so nothing assigned
`account_id` before the `return` statement read it. -/
theorem parse_event_no_match_counterexample :
    parse_event ⟨some "no account marker here", some "Some Subject",
        some "111122223333", some "Some Detail Type", "rendered"⟩
      = .error .unboundLocal := rfl

/-- C2, amended. For every custom-wrapped event whose nested SNS `Message`
and `Subject` fields are present but whose message text contains no
occurrence of `'Account: '` (so the regex `r'Account: [0-9]*'` has no
match), `parse_event` does not complete: it raises an unhandled
`UnboundLocalError` at its `return` statement, because `account_id` was
never assigned.  Hence `parse_event` fails upward in this case as well, not
only when neither shape's required fields are present. -/
theorem parse_event_no_match_raises (e : RawEvent) (msg subj : String)
    (hm : e.snsMessage = some msg) (hs : e.snsSubject = some subj)
    (hno : containsSub accountPat msg.data = false) :
    parse_event e = .error .unboundLocal := by
  simp [parse_event, hm, hs, findAccountMatch_eq_none msg.data hno]

/-- C2, witness for the amended theorem at a concrete input. -/
theorem parse_event_no_match_raises_witness :
    parse_event ⟨some "hello world", some "subj", none, none, "r"⟩
      = .error .unboundLocal :=
  parse_event_no_match_raises ⟨some "hello world", some "subj", none, none, "r"⟩
    "hello world" "subj" rfl rfl (by decide)

/-- C5, counterexample. The claim quantifies over every custom-wrapped event
whose message text *contains* the substring `"Account: 123456789012"`.  The
message `"Account: 1234567890129"` contains that substring, yet the greedy
digit run of `re.search(r'Account: [0-9]*', ...)` extracts
`"1234567890129"`, not `"123456789012"`. -/
theorem parse_event_extract_counterexample :
    containsSub "Account: 123456789012".data "Account: 1234567890129".data = true
    ∧ parse_event ⟨some "Account: 1234567890129", some "s", none, none, "r"⟩
        = .ok ("1234567890129", "s", "Account: 1234567890129")
    ∧ ("1234567890129" : String) ≠ "123456789012" :=
  ⟨by decide, rfl, by decide⟩

/-- C5, amended. For every custom-wrapped event whose message text's *first*
occurrence of `'Account: '` is immediately followed by the digit run
`123456789012` and then by no further digit, `parse_event` extracts the
account identifier `"123456789012"` exactly. -/
theorem parse_event_extracts_id (e : RawEvent) (msg subj : String) (suf : List Char)
    (hm : e.snsMessage = some msg) (hs : e.snsSubject = some subj)
    (hocc : firstAccountSuffix msg.data = some suf)
    (hdig : (suf.drop accountPat.length).takeWhile Char.isDigit = "123456789012".data) :
    parse_event e = .ok ("123456789012", subj, msg) := by
  have hf := findAccountMatch_of_firstSuffix msg.data suf hocc
  rw [hdig] at hf
  have hsplit : (splitOnSpace (accountPat ++ "123456789012".data)).getD 1 []
      = "123456789012".data := splitOnSpace_account _ (by decide)
  simp only [parse_event, hm, hs, hf]
  rw [hsplit]

/-- C5, witness for the amended theorem at a concrete input (the sample
event's message shape). -/
theorem parse_event_extracts_id_witness :
    parse_event ⟨some "SG alert!\nAccount: 123456789012\nRegion: x",
        some "Config Rule - Wide Open SG Rule Detected", none, none, "r"⟩
      = .ok ("123456789012", "Config Rule - Wide Open SG Rule Detected",
          "SG alert!\nAccount: 123456789012\nRegion: x") :=
  parse_event_extracts_id _ "SG alert!\nAccount: 123456789012\nRegion: x"
    "Config Rule - Wide Open SG Rule Detected"
    ("Account: 123456789012\nRegion: x".data) rfl rfl (by decide) (by decide)

/-- C6 (confirmed). For every native-shape event — one where the nested
`Records`/`Sns` structural access fails — that carries `account` and
`detail-type` fields, `parse_event` returns `account_id = event['account']`,
`subject = event['detail-type']`, and `message = str(event)`. -/
theorem parse_event_native_shape (e : RawEvent) (acct dt : String)
    (hfail : e.snsMessage = none ∨ e.snsSubject = none)
    (ha : e.account = some acct) (hd : e.detailType = some dt) :
    parse_event e = .ok (acct, dt, e.rendered) := by
  rcases hfail with h | h
  · simp [parse_event, h, ha, hd]
  · cases hsm : e.snsMessage with
    | none => simp [parse_event, hsm, ha, hd]
    | some m => simp [parse_event, hsm, h, ha, hd]

/-- C6, witness at a concrete native-shape input. -/
theorem parse_event_native_shape_witness :
    parse_event ⟨none, none, some "444455556666",
        some "New AWS IAM Access Key Pair Created", "native event text"⟩
      = .ok ("444455556666", "New AWS IAM Access Key Pair Created",
          "native event text") :=
  parse_event_native_shape _ "444455556666" "New AWS IAM Access Key Pair Created"
    (Or.inl rfl) rfl rfl

/-- C9 (confirmed). For every custom-wrapped event whose message text's first
occurrence of `'Account: '` is not immediately followed by a digit,
`parse_event` returns the empty string as the account identifier: the regex
`r'Account: [0-9]*'` accepts an empty digit run, so the match is
`"Account: "` and `split(' ')[1]` is `''`. -/
theorem parse_event_empty_digit_run (e : RawEvent) (msg subj : String) (suf : List Char)
    (hm : e.snsMessage = some msg) (hs : e.snsSubject = some subj)
    (hocc : firstAccountSuffix msg.data = some suf)
    (hnd : (suf.drop accountPat.length).takeWhile Char.isDigit = []) :
    parse_event e = .ok ("", subj, msg) := by
  have hf := findAccountMatch_of_firstSuffix msg.data suf hocc
  rw [hnd, List.append_nil] at hf
  have hsplit : (splitOnSpace accountPat).getD 1 [] = [] :=
    splitOnSpace_account [] (by simp)
  simp only [parse_event, hm, hs, hf]
  rw [hsplit]

/-- C9, witness at a concrete input whose first `'Account: '` is followed by
a non-digit. -/
theorem parse_event_empty_digit_run_witness :
    parse_event ⟨some "Account: unknown", some "subj", none, none, "r"⟩
      = .ok ("", "subj", "Account: unknown") :=
  parse_event_empty_digit_run _ "Account: unknown" "subj"
    ("Account: unknown".data) rfl rfl (by decide) (by decide)

/-- Replace-on-absent at the `String` level: when the template does not
contain the placeholder token, `update_email_template` returns it
unchanged. -/
theorem update_email_template_of_not_contains (t : String)
    (acct : String × String × String) (subj m : String)
    (h : containsSub violationsToken.data t.data = false) :
    update_email_template t acct subj m = t := by
  simp only [update_email_template, pyReplace]
  rw [pyRepl_of_not_contains _ _ _ h]

/-- C4, counterexample. The claim says that for *every* template containing
the placeholder token, a second render (with the same message) is a no-op.
With template `"[insert-iolations-here]"` and message
`"[insert-iolations-here]X"` the first render re-introduces the token, and
the second render substitutes again, changing the string. -/
theorem update_email_template_second_render_counterexample :
    containsSub violationsToken.data ("[insert-iolations-here]" : String).data = true
    ∧ update_email_template
        (update_email_template "[insert-iolations-here]" ("", "", "") "s"
          "[insert-iolations-here]X")
        ("", "", "") "s" "[insert-iolations-here]X"
      ≠ update_email_template "[insert-iolations-here]" ("", "", "") "s"
          "[insert-iolations-here]X" :=
  ⟨by decide, by decide⟩

/-- C4, amended. `update_email_template` is idempotent for every template
not containing the placeholder token (where it is the identity); and for a
template that does contain the token, applying the renderer a second time
(to the result, with the same message) is a no-op *provided* the first
render's output no longer contains the token — i.e. provided the message did
not re-introduce (or re-assemble) the placeholder. -/
theorem update_email_template_idempotent_cases (t m : String)
    (acct : String × String × String) (subj : String) :
    (containsSub violationsToken.data t.data = false →
      update_email_template (update_email_template t acct subj m) acct subj m
          = update_email_template t acct subj m
        ∧ update_email_template t acct subj m = t)
    ∧ (containsSub violationsToken.data (update_email_template t acct subj m).data = false →
      update_email_template (update_email_template t acct subj m) acct subj m
        = update_email_template t acct subj m) := by
  constructor
  · intro h
    have h1 := update_email_template_of_not_contains t acct subj m h
    rw [h1]
    exact ⟨h1, rfl⟩
  · intro h
    exact update_email_template_of_not_contains _ acct subj m h

/-- C4, witness: a second render of a token-bearing template is a no-op when
the message leaves no token behind. -/
theorem update_email_template_idempotent_cases_witness :
    update_email_template
        (update_email_template "A[insert-iolations-here]B" ("", "", "") "s" "violation list")
        ("", "", "") "s" "violation list"
      = update_email_template "A[insert-iolations-here]B" ("", "", "") "s" "violation list" :=
  (update_email_template_idempotent_cases "A[insert-iolations-here]B" "violation list"
    ("", "", "") "s").2 (by decide)

/-- C10 (confirmed). `update_email_template` replaces *every* occurrence of
the exact token `[insert-iolations-here]` with the message, not only the
first: on any template of the shape `t₀ ++ token ++ t₁ ++ token ++ t₂` in
which the filler pieces contain no `'['` (the only character the token can
start with, so these are exactly the occurrences), both occurrences are
substituted. -/
theorem update_email_template_replaces_all (t₀ t₁ t₂ m : String)
    (acct : String × String × String) (subj : String)
    (h₀ : ∀ c ∈ t₀.data, c ≠ '[') (h₁ : ∀ c ∈ t₁.data, c ≠ '[')
    (h₂ : ∀ c ∈ t₂.data, c ≠ '[') :
    update_email_template
        ⟨t₀.data ++ violationsToken.data ++ t₁.data ++ violationsToken.data ++ t₂.data⟩
        acct subj m
      = ⟨t₀.data ++ m.data ++ t₁.data ++ m.data ++ t₂.data⟩ := by
  have htok : violationsToken.data = '[' :: "insert-iolations-here]".data := rfl
  simp only [update_email_template, pyReplace]
  congr 1
  rw [htok]
  simp only [List.append_assoc]
  rw [pyRepl_append_of_head_notin _ _ _ t₀.data _ h₀,
    pyRepl_pat_append,
    pyRepl_append_of_head_notin _ _ _ t₁.data _ h₁,
    pyRepl_pat_append,
    pyRepl_of_head_notin _ _ _ t₂.data h₂]

/-- C10, witness at a concrete two-occurrence template. -/
theorem update_email_template_replaces_all_witness :
    update_email_template
        ⟨("pre-" : String).data ++ violationsToken.data ++ (" mid " : String).data
          ++ violationsToken.data ++ ("-post" : String).data⟩
        ("", "", "") "s" "V"
      = ⟨("pre-" : String).data ++ ("V" : String).data ++ (" mid " : String).data
          ++ ("V" : String).data ++ ("-post" : String).data⟩ :=
  update_email_template_replaces_all "pre-" " mid " "-post" "V" ("", "", "") "s"
    (by decide) (by decide) (by decide)

/-- C7 (confirmed). The Template Resolver selects the object name
`IAM Auto Key Rotation Enforcement.html` iff the subject contains
`New AWS IAM Access Key Pair Created`; for every other subject (the chosen
key is then `''`, whose retrieval fails — boto3 rejects empty object keys,
modelled by `fetch "" = none`) and for every failed blob fetch, it returns
the empty-string template body without raising. -/
theorem get_email_template_selection (event_type : String)
    (fetch : String → Option String) (hempty : fetch "" = none) :
    (templateKeyFor event_type = rotationTemplateKey
      ↔ containsSub rotationSubjectMarker.data event_type.data = true)
    ∧ (containsSub rotationSubjectMarker.data event_type.data = false →
        get_email_template event_type fetch = "")
    ∧ (fetch (templateKeyFor event_type) = none →
        get_email_template event_type fetch = "") := by
  refine ⟨?_, ?_, ?_⟩
  · cases h : containsSub rotationSubjectMarker.data event_type.data
    · simp only [templateKeyFor, h, if_false, Bool.false_eq_true, iff_false]
      decide
    · simp [templateKeyFor, h]
  · intro h
    simp [get_email_template, templateKeyFor, h, hempty]
  · intro h
    simp [get_email_template, h]

/-- C7, witness at the sample event's (unknown) subject with a failing
store. -/
theorem get_email_template_selection_witness :
    (templateKeyFor "Config Rule - Wide Open SG Rule Detected" = rotationTemplateKey
      ↔ containsSub rotationSubjectMarker.data
          ("Config Rule - Wide Open SG Rule Detected" : String).data = true)
    ∧ (containsSub rotationSubjectMarker.data
          ("Config Rule - Wide Open SG Rule Detected" : String).data = false →
        get_email_template "Config Rule - Wide Open SG Rule Detected" (fun _ => none) = "")
    ∧ ((fun _ => none : String → Option String)
          (templateKeyFor "Config Rule - Wide Open SG Rule Detected") = none →
        get_email_template "Config Rule - Wide Open SG Rule Detected" (fun _ => none) = "") :=
  get_email_template_selection "Config Rule - Wide Open SG Rule Detected"
    (fun _ => none) rfl

/-- C8 (confirmed). The request `send_email` submits to SES carries the same
rendered string as both the plain-text body and the HTML body. -/
theorem send_email_bodies_equal
    (admin_email_source end_user_email subject_text html_email_body : String) :
    (send_email admin_email_source end_user_email subject_text html_email_body).bodyTextData
      = (send_email admin_email_source end_user_email subject_text
          html_email_body).bodyHtmlData := rfl

/-- C3 (confirmed). Every invocation that reaches the Dispatch step (i.e.
`parse_event` and `get_account_email` both returned) yields `statusCode`
200 regardless of outcome, and the body is `json.dumps('Email sent!')` iff
the `send_email` call completed without raising; otherwise the body is
`json.dumps('ERROR email not sent!')`. -/
theorem lambda_handler_dispatch_status (e : RawEvent) (lookup : String → Option DynamoItem)
    (fetch : String → Option String) (sendOk : String → String → String → Bool)
    (a s m a' n em : String)
    (h1 : parse_event e = .ok (a, s, m))
    (h2 : get_account_email a lookup = .ok (a', n, em)) :
    ∃ body : String,
      lambda_handler e lookup fetch sendOk = .ok ⟨200, body⟩
      ∧ (body = jsonDumps "Email sent!"
          ↔ sendOk em s (update_email_template (get_email_template s fetch)
              (a', n, em) s m) = true)
      ∧ (body = jsonDumps "Email sent!" ∨ body = jsonDumps "ERROR email not sent!") := by
  cases hok : sendOk em s (update_email_template (get_email_template s fetch) (a', n, em) s m) with
  | false =>
    refine ⟨jsonDumps "ERROR email not sent!", ?_, ?_, Or.inr rfl⟩
    · simp [lambda_handler, h1, h2, hok]
    · simp only [hok, Bool.false_eq_true, iff_false]
      decide
  | true =>
    exact ⟨jsonDumps "Email sent!", by simp [lambda_handler, h1, h2, hok],
      by simp [hok], Or.inl rfl⟩

/-- C3, witness: a concrete invocation that reaches Dispatch. -/
theorem lambda_handler_dispatch_status_witness :
    ∃ body : String,
      lambda_handler ⟨none, none, some "1", some "dt", "r"⟩
          (fun _ => some ⟨some "user-at-example", some "acct-name"⟩)
          (fun _ => none) (fun _ _ _ => true)
        = .ok ⟨200, body⟩
      ∧ (body = jsonDumps "Email sent!"
          ↔ (fun _ _ _ => true : String → String → String → Bool) "user-at-example" "dt"
              (update_email_template (get_email_template "dt" (fun _ => none))
                ("1", "acct-name", "user-at-example") "dt" "r") = true)
      ∧ (body = jsonDumps "Email sent!" ∨ body = jsonDumps "ERROR email not sent!") :=
  lambda_handler_dispatch_status ⟨none, none, some "1", some "dt", "r"⟩
    (fun _ => some ⟨some "user-at-example", some "acct-name"⟩)
    (fun _ => none) (fun _ _ _ => true) "1" "dt" "r" "1" "acct-name" "user-at-example"
    rfl rfl
